import Mathlib

/-!
Verification of the rist-bonding repository's adaptive link-dispatch and
bitrate-control behaviour, together with its test/tooling scripts.

The Python scripts under `scripts/` are embedded shallowly: each endpoint or
helper becomes a pure Lean function over explicit state.  The GStreamer
elements `ristdispatcher` and `dynbitrate` are not part of the repository
source tree (the scripts only drive them through properties), so the
dispatcher's link selection and the dynamic bitrate controller are modelled
from the specification text and marked as such in their doc comments.
-/

namespace RistBonding

/-! ## Network simulation control API (scripts/network-sim/network-control-api.py) -/

/-- The netem-relevant fields of the module-level `current_state` dictionary in
`network-control-api.py`.  The `interface` and `last_update` bookkeeping fields
are not part of the network-condition state the claims are about. -/
structure NetState where
  latency_ms : ℚ
  loss_pct : ℚ
  bandwidth_mbps : ℚ
  jitter_ms : ℚ
deriving DecidableEq, Repr

/-- The race-track default values given to `current_state` at module load. -/
def defaultNetState : NetState :=
  { latency_ms := 80, loss_pct := 2, bandwidth_mbps := 7, jitter_ms := 15 }

/-- A JSON body posted to `/update`: each key may or may not be present. -/
structure UpdateRequest where
  latency_ms : Option ℚ
  loss_pct : Option ℚ
  bandwidth_mbps : Option ℚ
  jitter_ms : Option ℚ
deriving DecidableEq, Repr

/-- The field-by-field merge performed by the `if key in data` block of
`update_network`: a present key overwrites the stored value, an absent key
leaves it unchanged. -/
def applyUpdate (st : NetState) (d : UpdateRequest) : NetState :=
  { latency_ms := d.latency_ms.getD st.latency_ms
    loss_pct := d.loss_pct.getD st.loss_pct
    bandwidth_mbps := d.bandwidth_mbps.getD st.bandwidth_mbps
    jitter_ms := d.jitter_ms.getD st.jitter_ms }

/-- The JSON response returned by the `/update` endpoint: the `success` flag
reported from `apply_tc_rules` and the `current_state` echoed back. -/
structure UpdateResponse where
  success : Bool
  current_state : NetState
deriving DecidableEq, Repr

/-- The `/update` endpoint `update_network`.  The code first merges the request
into `current_state`, then calls `apply_tc_rules`; the outcome of that external
`tc` invocation is the boolean parameter `tcOk`.  The function returns the
state as stored after the call together with the HTTP response. -/
def update_network (st : NetState) (d : UpdateRequest) (tcOk : Bool) :
    NetState × UpdateResponse :=
  let st' := applyUpdate st d
  (st', { success := tcOk, current_state := st' })

/-- The preset table of `apply_preset`, keyed by preset name; `none` for a name
outside the table. -/
def presets : String → Option NetState
  | "race-track-best" =>
      some { latency_ms := 80, loss_pct := 2, bandwidth_mbps := 7, jitter_ms := 15 }
  | "race-track-variable-1" =>
      some { latency_ms := 120, loss_pct := 4, bandwidth_mbps := 3/2, jitter_ms := 25 }
  | "race-track-variable-2" =>
      some { latency_ms := 140, loss_pct := 6, bandwidth_mbps := 4/5, jitter_ms := 30 }
  | "race-track-variable-3" =>
      some { latency_ms := 160, loss_pct := 8, bandwidth_mbps := 2/5, jitter_ms := 40 }
  | "good-4g" =>
      some { latency_ms := 80, loss_pct := 2, bandwidth_mbps := 7, jitter_ms := 15 }
  | "poor-4g" =>
      some { latency_ms := 120, loss_pct := 4, bandwidth_mbps := 3/2, jitter_ms := 25 }
  | "5g" =>
      some { latency_ms := 80, loss_pct := 2, bandwidth_mbps := 7, jitter_ms := 15 }
  | "variable" =>
      some { latency_ms := 140, loss_pct := 6, bandwidth_mbps := 4/5, jitter_ms := 30 }
  | _ => none

/-- The observable outcome of a `/preset/<name>` request: the stored state
after the request, the HTTP status code of the response, whether
`apply_tc_rules` was invoked at all, and its reported outcome when it was. -/
structure PresetResult where
  state : NetState
  httpStatus : ℕ
  tcAttempted : Bool
  success : Option Bool
deriving DecidableEq, Repr

/-- The `/preset/<name>` endpoint `apply_preset`.  An unknown name returns the
error response with status 400 before the state is touched or `tc` is run; a
known name overwrites all four netem fields with the preset's values and then
applies them, the outcome of the external `tc` invocation being `tcOk`. -/
def apply_preset (name : String) (st : NetState) (tcOk : Bool) : PresetResult :=
  match presets name with
  | none => { state := st, httpStatus := 400, tcAttempted := false, success := none }
  | some p => { state := p, httpStatus := 200, tcAttempted := true, success := some tcOk }

/-! ## Receiver statistics server (scripts/receiver/stats-server.py) -/

/-- The counter fields of the `stats_data` dictionary in `stats-server.py`.
The counters are natural numbers (they start at 0 and are only incremented). -/
structure StatsData where
  packets_received : ℕ
  packets_lost : ℕ
  bytes_received : ℕ
deriving DecidableEq, Repr

/-- The `packet_loss_rate` field computed by the `/stats` endpoint:
`packets_lost / max(packets_received, 1) * 100`. -/
def packet_loss_rate (s : StatsData) : ℚ :=
  (s.packets_lost : ℚ) / ((max s.packets_received 1 : ℕ) : ℚ) * 100

/-- The `throughput_mbps` field computed by the `/stats` endpoint:
`bytes_received * 8 / (1024 * 1024) / max(uptime, 1)`, where `uptime` is the
elapsed time since `start_time`. -/
def throughput_mbps (s : StatsData) (uptime : ℚ) : ℚ :=
  (s.bytes_received : ℚ) * 8 / (1024 * 1024) / max uptime 1

/-! ## Link failure test (scripts/test-link-failure.py) -/

/-- The `original_weight` recorded by `simulate_link_failure` before the
failure: the current entry when `link_index` is in range, `1.0` otherwise. -/
def originalWeight (w : List ℚ) (i : ℕ) : ℚ :=
  if i < w.length then w.getD i 0 else 1

/-- The weight vector written by `simulate_link_failure` when it applies the
failure: entry `i` set to 0, the list first extended with `1.0` entries when
`i` is out of range (the `while len <= link_index: append(1.0)` loop). -/
def failWeights (w : List ℚ) (i : ℕ) : List ℚ :=
  if i < w.length then w.set i 0
  else (w ++ List.replicate (i + 1 - w.length) 1).set i 0

/-- The weight vector written by `simulate_link_failure` when it restores the
link after the failure duration: entry `i` of the failed vector set back to the
recorded original weight. -/
def restoreWeights (w : List ℚ) (i : ℕ) : List ℚ :=
  (failWeights w i).set i (originalWeight w i)

/-- The two weight vectors published by `simulate_link_failure w i`, in order:
the vector with link `i` failed, then the vector after restoration. -/
def simulate_link_failure (w : List ℚ) (i : ℕ) : List ℚ × List ℚ :=
  (failWeights w i, restoreWeights w i)

/-- The dispatcher properties that `LinkFailureTest.create_test_pipeline` may
set on the `ristdispatcher` element named `disp`; `none` records a property the
method never sets. -/
structure DispatcherProps where
  weights : Option (List ℚ)
  autoBalance : Option Bool
  strategy : Option String
  rebalanceIntervalMs : Option ℕ
deriving DecidableEq, Repr

/-- The dispatcher configuration applied by `create_test_pipeline`: weights
`"[2.0, 1.5, 1.0, 0.5]"`, `auto-balance` true, `strategy` `"ewma"`.  No other
dispatcher property is set; in particular `rebalance-interval-ms` is not. -/
def create_test_pipeline_props : DispatcherProps :=
  { weights := some [2, 3/2, 1, 1/2]
    autoBalance := some true
    strategy := some "ewma"
    rebalanceIntervalMs := none }

/-! ## Test content generation (scripts/generate-test-content.py) -/

/-- One entry of the `links` array in the generated bonding configuration. -/
structure ConfigLink where
  address : String
  weight : ℚ
  name : String
deriving DecidableEq, Repr

/-- The fields of the JSON document written by `generate_test_config` to
`bonding-config.json`: the `bonding` section (links, strategy, rebalance
interval) and the `encoder` section (bitrate and its bounds).  `targetLossPct`
records the target-loss threshold key; `none` because no such key is present
anywhere in the generated document. -/
structure BondingTestConfig where
  links : List ConfigLink
  strategy : String
  rebalanceIntervalMs : ℕ
  bitrateKbps : ℕ
  minKbps : ℕ
  maxKbps : ℕ
  stepKbps : ℕ
  targetLossPct : Option ℚ
deriving DecidableEq, Repr

/-- The configuration document produced by `generate_test_config`. -/
def generate_test_config : BondingTestConfig :=
  { links :=
      [ { address := "172.20.1.2:5004", weight := 1, name := "good-4g" }
      , { address := "172.20.2.2:5005", weight := 1/2, name := "poor-4g" }
      , { address := "172.20.3.2:5006", weight := 2, name := "5g" }
      , { address := "172.20.4.2:5007", weight := 1, name := "variable" } ]
    strategy := "ewma"
    rebalanceIntervalMs := 500
    bitrateKbps := 4000
    minKbps := 1000
    maxKbps := 8000
    stepKbps := 250
    targetLossPct := none }

/-! ## Dispatcher link selection (modelled from the spec) -/

/-- Modelled from the spec: the weighted walk at the heart of the dispatcher's
selection.  Given the (index, weight) pairs of the candidate links and a
sample point `x`, it returns the index of the link whose cumulative weight
interval contains `x`, or `none` when `x` lies beyond the total weight. -/
def pickWeighted : List (ℕ × ℚ) → ℚ → Option ℕ
  | [], _ => none
  | (i, q) :: rest, x => if x < q then some i else pickWeighted rest (x - q)

/-- The candidate links of a weight vector: the indexed entries restricted to
links with weight strictly greater than 0. -/
def positiveLinks (w : List ℚ) : List (ℕ × ℚ) :=
  w.enum.filter fun p => 0 < p.2

/-- The total weight of the candidate links. -/
def totalWeight (w : List ℚ) : ℚ :=
  ((positiveLinks w).map Prod.snd).sum

/-- Modelled from the spec: `Dispatcher.select_link` for the `ristdispatcher`
element, whose source is not in the repository (the scripts only drive it
through GStreamer properties).  Per section 4.4 it performs weighted selection
over the currently published weight vector restricted to links with weight
greater than 0, with an injectable source of randomness `x`, and returns an
explicit no-route error (`none`) when no link has positive weight.  The random
sample is reduced into `[0, totalWeight w)` by taking its fractional part. -/
def select_link (w : List ℚ) (x : ℚ) : Option ℕ :=
  let total := totalWeight w
  if total ≤ 0 then none
  else pickWeighted (positiveLinks w) (total * Int.fract (x / total))

/-! ## Dynamic bitrate controller (modelled from the spec) -/

/-- Modelled from the spec: the configuration of the `dynbitrate` element,
whose source is not in the repository.  Bitrate bounds and step in kbps, the
target-loss threshold, and the hysteresis cool-down tick count (section 4.5). -/
structure BitrateConfig where
  minKbps : ℕ
  maxKbps : ℕ
  stepKbps : ℕ
  targetLossPct : ℚ
  cooldownTicks : ℕ
deriving DecidableEq, Repr

/-- Modelled from the spec: one telemetry aggregate consumed by a controller
tick — the aggregate loss rate and the aggregate capacity estimate across
currently-healthy links. -/
structure Telemetry where
  lossPct : ℚ
  capacityKbps : ℕ
deriving DecidableEq, Repr

/-- Modelled from the spec: the controller's mutable session state — the
current target bitrate and the remaining Holding ticks of the hysteresis. -/
structure ControllerState where
  bitrate : ℕ
  cooldown : ℕ
deriving DecidableEq, Repr

/-- Modelled from the spec: one tick of the `DynamicBitrateController`
(section 4.5).  While in Holding the tick only counts the cool-down off.  In
Evaluating: aggregate loss above the target-loss threshold decreases the
target by one step with a floor at the minimum; aggregate loss below the
threshold with enough aggregate capacity for the next step increases the
target by one step with a ceiling at the maximum; otherwise the tick holds.
Any change enters Holding for the configured cool-down tick count. -/
def controllerTick (cfg : BitrateConfig) (st : ControllerState) (t : Telemetry) :
    ControllerState :=
  if 0 < st.cooldown then
    { bitrate := st.bitrate, cooldown := st.cooldown - 1 }
  else if cfg.targetLossPct < t.lossPct then
    let b := max cfg.minKbps (st.bitrate - cfg.stepKbps)
    { bitrate := b, cooldown := if b = st.bitrate then 0 else cfg.cooldownTicks }
  else if t.lossPct < cfg.targetLossPct ∧ st.bitrate + cfg.stepKbps ≤ t.capacityKbps then
    let b := min cfg.maxKbps (st.bitrate + cfg.stepKbps)
    { bitrate := b, cooldown := if b = st.bitrate then 0 else cfg.cooldownTicks }
  else
    { bitrate := st.bitrate, cooldown := 0 }

/-- The sequence of controller states produced by running `controllerTick`
over a sequence of telemetry aggregates, one state per tick. -/
def controllerRun (cfg : BitrateConfig) (st : ControllerState) :
    List Telemetry → List ControllerState
  | [] => []
  | t :: ts =>
    let st' := controllerTick cfg st t
    st' :: controllerRun cfg st' ts

/-! ## Helper lemmas -/

/-- Writing back the value already stored at an in-range index leaves the list
unchanged. -/
theorem set_getD_self (w : List ℚ) (i : ℕ) (h : i < w.length) :
    w.set i (w.getD i 0) = w := by
  apply List.ext_getElem?
  intro j
  by_cases hj : i = j
  · subst hj
    rw [List.getElem?_set_self h, List.getD_eq_getElem?_getD, List.getElem?_eq_getElem h]
    rfl
  · exact List.getElem?_set_ne hj

/-! ## Claim C3 -/

/-- C3: For every weight vector and every in-range link index, running the
failure simulation (set the link's weight to 0, hold, then restore) leaves the
weight at that index equal to its pre-failure value: the weight vector after
restoration equals the pre-failure vector. -/
theorem simulate_link_failure_restores (w : List ℚ) (i : ℕ) (h : i < w.length) :
    (simulate_link_failure w i).2 = w ∧
    ((simulate_link_failure w i).2).getD i 0 = w.getD i 0 := by
  have hrest : (simulate_link_failure w i).2 = w := by
    simp only [simulate_link_failure, restoreWeights, failWeights, originalWeight, if_pos h]
    rw [List.set_set]
    exact set_getD_self w i h
  exact ⟨hrest, by rw [hrest]⟩

/-- Witness for C3 at the scenario's weight vector and link 0. -/
theorem simulate_link_failure_restores_witness :
    0 < ([2, 3/2, 1, 1/2] : List ℚ).length ∧
    ((simulate_link_failure ([2, 3/2, 1, 1/2] : List ℚ) 0).2 = [2, 3/2, 1, 1/2] ∧
     ((simulate_link_failure ([2, 3/2, 1, 1/2] : List ℚ) 0).2).getD 0 0 =
       ([2, 3/2, 1, 1/2] : List ℚ).getD 0 0) :=
  ⟨by norm_num, simulate_link_failure_restores ([2, 3/2, 1, 1/2] : List ℚ) 0 (by norm_num)⟩

/-! ## Claim C4 -/

/-- C4: Simulating a failure of link `i` is a single-field update: at both
steps of `simulate_link_failure` (failure applied and restoration applied)
every weight-vector entry at an index other than `i` is unchanged from its
prior value. -/
theorem simulate_link_failure_frame (w : List ℚ) (i j : ℕ)
    (h : i < w.length) (hj : j ≠ i) :
    ((simulate_link_failure w i).1)[j]? = w[j]? ∧
    ((simulate_link_failure w i).2)[j]? = ((simulate_link_failure w i).1)[j]? := by
  constructor
  · simp only [simulate_link_failure, failWeights, if_pos h]
    exact List.getElem?_set_ne hj.symm
  · simp only [simulate_link_failure, restoreWeights]
    exact List.getElem?_set_ne hj.symm

/-- Witness for C4: failing link 1 of the scenario's vector leaves entry 0
untouched at both steps. -/
theorem simulate_link_failure_frame_witness :
    (1 < ([2, 3/2, 1, 1/2] : List ℚ).length ∧ (0 : ℕ) ≠ 1) ∧
    (((simulate_link_failure ([2, 3/2, 1, 1/2] : List ℚ) 1).1)[0]? =
       (([2, 3/2, 1, 1/2] : List ℚ))[0]? ∧
     ((simulate_link_failure ([2, 3/2, 1, 1/2] : List ℚ) 1).2)[0]? =
       ((simulate_link_failure ([2, 3/2, 1, 1/2] : List ℚ) 1).1)[0]?) :=
  ⟨⟨by norm_num, by norm_num⟩,
   simulate_link_failure_frame ([2, 3/2, 1, 1/2] : List ℚ) 1 0 (by norm_num) (by norm_num)⟩

/-! ## Claim C5 -/

/-- C5 counterexample: posting latency 999 to `/update` while the `tc`
invocation fails leaves the stored state holding the requested latency, not
the previous (last known good) value, so the claim fails at this input. -/
theorem update_network_counterexample :
    ¬ ((update_network defaultNetState
          { latency_ms := some 999, loss_pct := none, bandwidth_mbps := none, jitter_ms := none }
          false).1 = defaultNetState ∧
       (update_network defaultNetState
          { latency_ms := some 999, loss_pct := none, bandwidth_mbps := none, jitter_ms := none }
          false).2.success = false) := by
  rintro ⟨h, -⟩
  have h2 := congrArg NetState.latency_ms h
  norm_num [update_network, applyUpdate, defaultNetState] at h2

/-- C5 amended: when applying a requested update fails, the failure is
reported to the caller in the response, but the stored state is left holding
the merged requested values (the values whose application failed), not the
previous ones. -/
theorem update_network_reports_failure (st : NetState) (d : UpdateRequest) (tcOk : Bool) :
    (update_network st d tcOk).2.success = tcOk ∧
    (update_network st d tcOk).1 = applyUpdate st d ∧
    (update_network st d tcOk).2.current_state = applyUpdate st d :=
  ⟨rfl, rfl, rfl⟩

/-! ## Claim C8 -/

/-- C8: For every preset name not among the defined presets, the `/preset`
endpoint returns status 400 and the stored network state is entirely
unchanged, with no traffic-control rules applied. -/
theorem apply_preset_unknown (name : String) (st : NetState) (tcOk : Bool)
    (h : presets name = none) :
    (apply_preset name st tcOk).httpStatus = 400 ∧
    (apply_preset name st tcOk).state = st ∧
    (apply_preset name st tcOk).tcAttempted = false := by
  unfold apply_preset
  rw [h]
  exact ⟨rfl, rfl, rfl⟩

/-- Witness for C8 at the unknown preset name "bogus". -/
theorem apply_preset_unknown_witness :
    presets "bogus" = none ∧
    ((apply_preset "bogus" defaultNetState true).httpStatus = 400 ∧
     (apply_preset "bogus" defaultNetState true).state = defaultNetState ∧
     (apply_preset "bogus" defaultNetState true).tcAttempted = false) :=
  ⟨rfl, apply_preset_unknown "bogus" defaultNetState true rfl⟩

/-! ## Claim C9 -/

/-- C9: The `/stats` computation is total and never divides by zero: both
divisors `max(packets_received, 1)` and `max(uptime, 1)` are strictly
positive, and both derived rates are non-negative, even with zero packets
received or zero uptime. -/
theorem get_stats_total_and_nonneg (s : StatsData) (uptime : ℚ) :
    0 < max s.packets_received 1 ∧ (0:ℚ) < max uptime 1 ∧
    0 ≤ packet_loss_rate s ∧ 0 ≤ throughput_mbps s uptime := by
  have h1 : 0 < max s.packets_received 1 := lt_of_lt_of_le Nat.one_pos (le_max_right _ _)
  have h2 : (0:ℚ) < max uptime 1 := lt_of_lt_of_le one_pos (le_max_right _ _)
  refine ⟨h1, h2, ?_, ?_⟩
  · unfold packet_loss_rate
    have := div_nonneg (Nat.cast_nonneg (α := ℚ) s.packets_lost)
      (Nat.cast_nonneg (α := ℚ) (max s.packets_received 1))
    exact mul_nonneg this (by norm_num)
  · unfold throughput_mbps
    have hnum : (0:ℚ) ≤ (s.bytes_received : ℚ) * 8 / (1024 * 1024) :=
      div_nonneg (mul_nonneg (Nat.cast_nonneg _) (by norm_num)) (by norm_num)
    exact div_nonneg hnum (le_of_lt h2)

/-! ## Claim C10 -/

/-- C10: The legacy presets are equivalent to the race-track presets:
"good-4g" and "5g" set exactly the state of "race-track-best", "poor-4g" that
of "race-track-variable-1", and "variable" that of "race-track-variable-2". -/
theorem legacy_presets_match_race_track (st : NetState) (tcOk : Bool) :
    (apply_preset "good-4g" st tcOk).state = (apply_preset "race-track-best" st tcOk).state ∧
    (apply_preset "5g" st tcOk).state = (apply_preset "race-track-best" st tcOk).state ∧
    (apply_preset "poor-4g" st tcOk).state =
      (apply_preset "race-track-variable-1" st tcOk).state ∧
    (apply_preset "variable" st tcOk).state =
      (apply_preset "race-track-variable-2" st tcOk).state :=
  ⟨rfl, rfl, rfl, rfl⟩

/-! ## Claim C6 -/

/-- C6 counterexample: `create_test_pipeline` does not configure the
dispatcher exactly as end-to-end scenario 1 prescribes — it sets the weights
and the ewma strategy but never sets `rebalance-interval-ms`, so the
500 ms rebalance interval of the scenario is not configured. -/
theorem create_test_pipeline_counterexample :
    ¬ (create_test_pipeline_props.weights = some [2, 3/2, 1, 1/2] ∧
       create_test_pipeline_props.strategy = some "ewma" ∧
       create_test_pipeline_props.rebalanceIntervalMs = some 500) := by
  rintro ⟨-, -, h⟩
  simp [create_test_pipeline_props] at h

/-- C6 amended: `create_test_pipeline` configures the dispatcher with 4 links
of initial weights [2.0, 1.5, 1.0, 0.5], strategy ewma and auto-balance true,
and sets no rebalance interval (the element's default applies instead of the
scenario's 500 ms). -/
theorem create_test_pipeline_config_facts :
    create_test_pipeline_props.weights = some [2, 3/2, 1, 1/2] ∧
    (create_test_pipeline_props.weights.getD []).length = 4 ∧
    create_test_pipeline_props.strategy = some "ewma" ∧
    create_test_pipeline_props.autoBalance = some true ∧
    create_test_pipeline_props.rebalanceIntervalMs = none :=
  ⟨rfl, rfl, rfl, rfl, rfl⟩

/-! ## Claim C7 -/

/-- C7 counterexample: the generated bonding test configuration does not
contain all the parameters the claim lists — it has no target-loss threshold
key at all, so in particular none equal to 1.5. -/
theorem generate_test_config_counterexample :
    ¬ (generate_test_config.strategy = "ewma" ∧
       generate_test_config.rebalanceIntervalMs = 500 ∧
       generate_test_config.minKbps = 1000 ∧
       generate_test_config.maxKbps = 8000 ∧
       generate_test_config.stepKbps = 250 ∧
       generate_test_config.targetLossPct = some (3/2)) := by
  rintro ⟨-, -, -, -, -, h⟩
  simp [generate_test_config] at h

/-- C7 amended: the generated bonding test configuration contains strategy
ewma, rebalance interval 500 ms and bitrate bounds min=1000, max=8000,
step=250, but no target-loss threshold parameter. -/
theorem generate_test_config_facts :
    generate_test_config.strategy = "ewma" ∧
    generate_test_config.rebalanceIntervalMs = 500 ∧
    generate_test_config.minKbps = 1000 ∧
    generate_test_config.maxKbps = 8000 ∧
    generate_test_config.stepKbps = 250 ∧
    generate_test_config.targetLossPct = none :=
  ⟨rfl, rfl, rfl, rfl, rfl, rfl⟩

/-! ## Claim C1: dispatcher never selects a zero-weight link -/

/-- A link index returned by the weighted walk carries one of the walked
(index, weight) pairs. -/
theorem pickWeighted_mem (ws : List (ℕ × ℚ)) (x : ℚ) (i : ℕ)
    (h : pickWeighted ws x = some i) : ∃ q, (i, q) ∈ ws := by
  induction ws generalizing x with
  | nil => simp [pickWeighted] at h
  | cons p rest ih =>
    obtain ⟨j, q⟩ := p
    by_cases hxq : x < q
    · simp only [pickWeighted, if_pos hxq] at h
      injection h with h'
      subst h'
      exact ⟨q, List.mem_cons_self _ _⟩
    · simp only [pickWeighted, if_neg hxq] at h
      obtain ⟨q', hq'⟩ := ih _ h
      exact ⟨q', List.mem_cons_of_mem _ hq'⟩

/-- The weighted walk succeeds whenever the sample point lies within the total
weight of the walked pairs. -/
theorem pickWeighted_isSome (ws : List (ℕ × ℚ)) (x : ℚ)
    (h0 : 0 ≤ x) (hlt : x < (ws.map Prod.snd).sum) : (pickWeighted ws x).isSome := by
  induction ws generalizing x with
  | nil =>
    simp only [List.map_nil, List.sum_nil] at hlt
    linarith
  | cons p rest ih =>
    obtain ⟨j, q⟩ := p
    by_cases hxq : x < q
    · simp [pickWeighted, if_pos hxq]
    · have hq : q ≤ x := not_lt.mp hxq
      have hsum : x - q < (rest.map Prod.snd).sum := by
        simp only [List.map_cons, List.sum_cons] at hlt
        linarith
      simp only [pickWeighted, if_neg hxq]
      exact ih (x - q) (by linarith) hsum

/-- Every pair of `positiveLinks w` is an indexed entry of `w` with strictly
positive weight. -/
theorem mem_positiveLinks (w : List ℚ) (i : ℕ) (q : ℚ)
    (h : (i, q) ∈ positiveLinks w) : w[i]? = some q ∧ 0 < q := by
  unfold positiveLinks at h
  have h' := List.mem_filter.mp h
  refine ⟨?_, by simpa using h'.2⟩
  simpa using List.mem_enum_iff_getElem?.mp h'.1

/-- An in-range index with positive weight contributes its pair to
`positiveLinks`. -/
theorem getD_mem_positiveLinks (w : List ℚ) (i : ℕ) (h : i < w.length)
    (hp : 0 < w.getD i 0) : (i, w.getD i 0) ∈ positiveLinks w := by
  unfold positiveLinks
  apply List.mem_filter.mpr
  refine ⟨?_, by simpa using hp⟩
  apply List.mem_enum_iff_getElem?.mpr
  simp [List.getD_eq_getElem?_getD, List.getElem?_eq_getElem h]

/-- The total weight of the candidates is positive as soon as one link weight
is positive. -/
theorem totalWeight_pos (w : List ℚ) (i : ℕ) (h : i < w.length)
    (hp : 0 < w.getD i 0) : 0 < totalWeight w := by
  have hmem : (i, w.getD i 0) ∈ positiveLinks w := getD_mem_positiveLinks w i h hp
  have hmem' : w.getD i 0 ∈ (positiveLinks w).map Prod.snd :=
    List.mem_map_of_mem _ hmem
  have hall : ∀ x ∈ (positiveLinks w).map Prod.snd, (0:ℚ) ≤ x := by
    intro x hx
    obtain ⟨⟨j, q⟩, hjq, rfl⟩ := List.mem_map.mp hx
    exact le_of_lt (mem_positiveLinks w j q hjq).2
  unfold totalWeight
  calc (0:ℚ) < w.getD i 0 := hp
    _ ≤ ((positiveLinks w).map Prod.snd).sum := List.single_le_sum hall _ hmem'

/-- C1: For every published weight vector in which at least one link has
weight greater than 0, every call to `select_link` (for any injected random
sample) returns a link whose weight is strictly positive; it never returns a
link with weight 0. -/
theorem select_link_positive (w : List ℚ) (x : ℚ)
    (h : ∃ i, i < w.length ∧ 0 < w.getD i 0) :
    ∃ j, select_link w x = some j ∧ 0 < w.getD j 0 := by
  obtain ⟨i, hi, hp⟩ := h
  have htot : 0 < totalWeight w := totalWeight_pos w i hi hp
  have hnle : ¬ totalWeight w ≤ 0 := not_le.mpr htot
  have hx0 : 0 ≤ totalWeight w * Int.fract (x / totalWeight w) :=
    mul_nonneg (le_of_lt htot) (Int.fract_nonneg _)
  have hxlt : totalWeight w * Int.fract (x / totalWeight w) < totalWeight w := by
    calc totalWeight w * Int.fract (x / totalWeight w)
        < totalWeight w * 1 :=
          mul_lt_mul_of_pos_left (Int.fract_lt_one (x / totalWeight w)) htot
      _ = totalWeight w := mul_one _
  have hsome :
      (pickWeighted (positiveLinks w) (totalWeight w * Int.fract (x / totalWeight w))).isSome := by
    apply pickWeighted_isSome _ _ hx0
    unfold totalWeight at hxlt ⊢
    exact hxlt
  obtain ⟨j, hj⟩ := Option.isSome_iff_exists.mp hsome
  obtain ⟨q, hq⟩ := pickWeighted_mem _ _ _ hj
  have hmq := mem_positiveLinks w j q hq
  refine ⟨j, ?_, ?_⟩
  · simp only [select_link, if_neg hnle]
    exact hj
  · have hDq : w.getD j 0 = q := by
      rw [List.getD_eq_getElem?_getD, hmq.1]
      rfl
    rw [hDq]
    exact hmq.2

/-- Witness for C1 at the vector [0, 2] (link 0 failed, link 1 healthy) and
random sample 1. -/
theorem select_link_positive_witness :
    (∃ i, i < ([0, 2] : List ℚ).length ∧ 0 < ([0, 2] : List ℚ).getD i 0) ∧
    (∃ j, select_link ([0, 2] : List ℚ) 1 = some j ∧ 0 < ([0, 2] : List ℚ).getD j 0) :=
  ⟨⟨1, by norm_num⟩, select_link_positive ([0, 2] : List ℚ) 1 ⟨1, by norm_num⟩⟩

/-! ## Claim C2: bitrate controller bounds and step granularity -/

/-- A natural-number divisibility on both truncated differences gives integer
divisibility of the signed difference. -/
theorem int_dvd_sub_of_nat (s a b : ℕ) (h1 : s ∣ (a - b)) (h2 : s ∣ (b - a)) :
    (s : ℤ) ∣ ((a : ℤ) - (b : ℤ)) := by
  rcases le_total b a with h | h
  · have e : (a : ℤ) - b = ((a - b : ℕ) : ℤ) := by omega
    rw [e]
    exact_mod_cast h1
  · have e : (a : ℤ) - b = -(((b - a : ℕ)) : ℤ) := by omega
    rw [e]
    exact dvd_neg.mpr (by exact_mod_cast h2)

/-- One controller tick keeps the target within the configured bounds, keeps
it on the step grid anchored at the minimum, and moves it by an integer
multiple of the step. -/
theorem controllerTick_invariant (cfg : BitrateConfig) (st : ControllerState) (t : Telemetry)
    (hmm : cfg.minKbps ≤ cfg.maxKbps)
    (hlo : cfg.minKbps ≤ st.bitrate) (hhi : st.bitrate ≤ cfg.maxKbps)
    (hga : cfg.stepKbps ∣ (st.bitrate - cfg.minKbps))
    (hgm : cfg.stepKbps ∣ (cfg.maxKbps - cfg.minKbps)) :
    cfg.minKbps ≤ (controllerTick cfg st t).bitrate ∧
    (controllerTick cfg st t).bitrate ≤ cfg.maxKbps ∧
    cfg.stepKbps ∣ ((controllerTick cfg st t).bitrate - cfg.minKbps) ∧
    (cfg.stepKbps : ℤ) ∣ (((controllerTick cfg st t).bitrate : ℤ) - (st.bitrate : ℤ)) := by
  obtain ⟨mn, mx, s, tl, cd⟩ := cfg
  obtain ⟨b, c⟩ := st
  simp only at hmm hlo hhi hga hgm
  have hold : (s : ℤ) ∣ ((b : ℤ) - (b : ℤ)) := by
    rw [sub_self]
    exact dvd_zero _
  unfold controllerTick
  by_cases hc : 0 < c
  · simp only [if_pos hc]
    exact ⟨hlo, hhi, hga, hold⟩
  · simp only [if_neg hc]
    by_cases hloss : tl < t.lossPct
    · simp only [if_pos hloss]
      by_cases hfloor : b - s ≤ mn
      · rw [max_eq_left hfloor]
        refine ⟨le_refl _, hmm, by simp, ?_⟩
        apply int_dvd_sub_of_nat
        · have e : mn - b = 0 := by omega
          rw [e]
          exact dvd_zero _
        · exact hga
      · have hlt : mn ≤ b - s := le_of_not_le hfloor
        rw [max_eq_right hlt]
        refine ⟨hlt, le_trans (Nat.sub_le _ _) hhi, ?_, ?_⟩
        · rw [Nat.sub_right_comm]
          exact Nat.dvd_sub' hga dvd_rfl
        · apply int_dvd_sub_of_nat
          · have e : b - s - b = 0 := by omega
            rw [e]
            exact dvd_zero _
          · have e : b - (b - s) = s := by omega
            rw [e]
    · simp only [if_neg hloss]
      by_cases hup : t.lossPct < tl ∧ b + s ≤ t.capacityKbps
      · simp only [if_pos hup]
        by_cases hceil : mx ≤ b + s
        · rw [min_eq_left hceil]
          refine ⟨hmm, le_refl _, hgm, ?_⟩
          apply int_dvd_sub_of_nat
          · have e : mx - b = (mx - mn) - (b - mn) := by omega
            rw [e]
            exact Nat.dvd_sub' hgm hga
          · have e : b - mx = 0 := by omega
            rw [e]
            exact dvd_zero _
        · have hle : b + s ≤ mx := le_of_not_le hceil
          rw [min_eq_right hle]
          refine ⟨le_trans hlo (Nat.le_add_right _ _), hle, ?_, ?_⟩
          · have e : b + s - mn = (b - mn) + s := by omega
            rw [e]
            exact dvd_add hga dvd_rfl
          · have e : ((b + s : ℕ) : ℤ) - (b : ℤ) = (s : ℤ) := by push_cast; ring
            rw [e]
      · simp only [if_neg hup]
        exact ⟨hlo, hhi, hga, hold⟩

/-- C2 amended: for every controller configuration with `min ≤ max` and every
initial target that lies in `[min, max]` on the step grid anchored at the
minimum (with the maximum on the same grid), every output of every run stays
within `[min-kbps, max-kbps]` and every change between consecutive outputs is
an exact integer multiple of `step-kbps`. -/
theorem controllerRun_bounds_and_steps (cfg : BitrateConfig) (st : ControllerState)
    (ts : List Telemetry)
    (hmm : cfg.minKbps ≤ cfg.maxKbps)
    (hgm : cfg.stepKbps ∣ (cfg.maxKbps - cfg.minKbps))
    (hlo : cfg.minKbps ≤ st.bitrate) (hhi : st.bitrate ≤ cfg.maxKbps)
    (hga : cfg.stepKbps ∣ (st.bitrate - cfg.minKbps)) :
    (∀ u ∈ controllerRun cfg st ts, cfg.minKbps ≤ u.bitrate ∧ u.bitrate ≤ cfg.maxKbps) ∧
    List.Chain (fun a b : ℕ => (cfg.stepKbps : ℤ) ∣ ((b : ℤ) - (a : ℤ))) st.bitrate
      ((controllerRun cfg st ts).map ControllerState.bitrate) := by
  revert hlo hhi hga
  induction ts generalizing st with
  | nil =>
    intro hlo hhi hga
    exact ⟨by simp [controllerRun], by simp [controllerRun]⟩
  | cons t ts ih =>
    intro hlo hhi hga
    obtain ⟨h1, h2, h3, h4⟩ := controllerTick_invariant cfg st t hmm hlo hhi hga hgm
    obtain ⟨hmem, hchain⟩ := ih (controllerTick cfg st t) h1 h2 h3
    constructor
    · intro u hu
      simp only [controllerRun] at hu
      rcases List.mem_cons.mp hu with rfl | hu'
      · exact ⟨h1, h2⟩
      · exact hmem u hu'
    · simp only [controllerRun, List.map_cons]
      exact List.Chain.cons h4 hchain

/-- Witness for C2 (amended) at scenario 3's bounds, initial target 4000 and
two telemetry ticks (heavy loss, then clean with headroom). -/
theorem controllerRun_bounds_and_steps_witness :
    (({ minKbps := 1000, maxKbps := 8000, stepKbps := 250, targetLossPct := 3/2,
        cooldownTicks := 2 } : BitrateConfig).minKbps ≤ (8000:ℕ) ∧
     (250:ℕ) ∣ (8000 - 1000) ∧ (1000:ℕ) ≤ 4000 ∧ (4000:ℕ) ≤ 8000 ∧ (250:ℕ) ∣ (4000 - 1000)) ∧
    ((∀ u ∈ controllerRun
        { minKbps := 1000, maxKbps := 8000, stepKbps := 250, targetLossPct := 3/2,
          cooldownTicks := 2 }
        { bitrate := 4000, cooldown := 0 }
        [{ lossPct := 3, capacityKbps := 10000 }, { lossPct := 1, capacityKbps := 10000 }],
        (1000:ℕ) ≤ u.bitrate ∧ u.bitrate ≤ 8000) ∧
     List.Chain (fun a b : ℕ => ((250:ℕ) : ℤ) ∣ ((b : ℤ) - (a : ℤ))) 4000
       ((controllerRun
          { minKbps := 1000, maxKbps := 8000, stepKbps := 250, targetLossPct := 3/2,
            cooldownTicks := 2 }
          { bitrate := 4000, cooldown := 0 }
          [{ lossPct := 3, capacityKbps := 10000 },
           { lossPct := 1, capacityKbps := 10000 }]).map ControllerState.bitrate)) :=
  ⟨⟨by norm_num, by norm_num, by norm_num, by norm_num, by norm_num⟩,
   controllerRun_bounds_and_steps
     { minKbps := 1000, maxKbps := 8000, stepKbps := 250, targetLossPct := 3/2,
       cooldownTicks := 2 }
     { bitrate := 4000, cooldown := 0 }
     [{ lossPct := 3, capacityKbps := 10000 }, { lossPct := 1, capacityKbps := 10000 }]
     (by norm_num) (by norm_num) (by norm_num) (by norm_num) (by norm_num)⟩

/-- C2 counterexample: with bounds min=1000, max=8000, step=250 and an
initial target of 1100 (inside the bounds but off the step grid), one tick of
heavy loss clamps the target to the 1000 floor, a change of 100, which is not
a multiple of 250: the claim as stated fails at this input. -/
theorem controllerRun_step_multiple_counterexample :
    ¬ ((∀ u ∈ controllerRun
          { minKbps := 1000, maxKbps := 8000, stepKbps := 250, targetLossPct := 3/2,
            cooldownTicks := 2 }
          { bitrate := 1100, cooldown := 0 }
          [{ lossPct := 3, capacityKbps := 10000 }],
          (1000:ℕ) ≤ u.bitrate ∧ u.bitrate ≤ 8000) ∧
       List.Chain (fun a b : ℕ => ((250:ℕ) : ℤ) ∣ ((b : ℤ) - (a : ℤ))) 1100
         ((controllerRun
            { minKbps := 1000, maxKbps := 8000, stepKbps := 250, targetLossPct := 3/2,
              cooldownTicks := 2 }
            { bitrate := 1100, cooldown := 0 }
            [{ lossPct := 3, capacityKbps := 10000 }]).map ControllerState.bitrate)) := by
  have hrun : controllerRun
      { minKbps := 1000, maxKbps := 8000, stepKbps := 250, targetLossPct := 3/2,
        cooldownTicks := 2 }
      { bitrate := 1100, cooldown := 0 }
      [{ lossPct := 3, capacityKbps := 10000 }] =
      [{ bitrate := 1000, cooldown := 2 }] := by
    norm_num [controllerRun, controllerTick]
  rintro ⟨-, hchain⟩
  rw [hrun] at hchain
  simp only [List.map_cons, List.map_nil, List.chain_cons] at hchain
  have hdvd : ((250:ℕ) : ℤ) ∣ (((1000:ℕ) : ℤ) - ((1100:ℕ) : ℤ)) := hchain.1
  norm_num at hdvd

end RistBonding
